import Mathlib

/-!
Verification development for the `uwo-santa-clause` repository, a pthreads
solution to the Santa Claus Problem.  The repository holds several
near-duplicate C variants of the same program: `src/trunk/main.c` (here
called the *trunk* variant) and `src/unnamed/part_002`, whose first
embedded file (lines 1-417, here called the *v2* variant) is the
sleep-gate + service-counter variant that the specification follows.

The shared data structures are embedded as plain Lean values:

* the WaitingSet (`set_t elves_waiting`) as a `List Nat` of elf identities
  (set.c is absent from src/, so its three operations are modelled from
  the spec, section 4.1);
* semaphore values as `Nat` counters (a `sem_signal` increments, a
  `sem_wait` decrements / blocks at 0);
* the C `int` counters `num_reindeer_waiting` and `num_elves_being_helped`
  as `Int`.

Straight-line thread bodies are additionally embedded as lists of
primitive actions (`Act`) so that lock-ordering properties can be stated,
and the racy reindeer arrival path is embedded as a small interleaving
machine (`ArrivalState`) scheduled by an explicit list of thread indices.
-/

namespace UwoSantaClause

/-- NUM_REINDEER, the Transport pool size N (src/trunk/main.c line 21,
src/unnamed/part_002 line 39). -/
def NUM_REINDEER : Nat := 10

/-- NUM_ELVES, the Helper-seeker pool size E (src/trunk/main.c line 22,
src/unnamed/part_002 line 40). -/
def NUM_ELVES : Nat := 9

/-- NUM_ELVES_PER_GROUP, the service group size K (src/trunk/main.c
line 23, src/unnamed/part_002 line 41). -/
def NUM_ELVES_PER_GROUP : Nat := 3

/-- Modelled from the spec: set.c is absent from src/ (only the header
src/unnamed/part_000 and the callers are present).  `set_insert` adds one
identity to the WaitingSet; the spec (section 4.1) leaves the member order
unspecified, so the multiset is a list and insertion is cons. -/
def set_insert (s : List Nat) (item : Nat) : List Nat := item :: s

/-- Modelled from the spec: set.c is absent from src/.  `set_take` removes
and returns one arbitrary member (here the head); spec section 4.1 makes
callers responsible for the cardinality being large enough, so the empty
case returns `none`. -/
def set_take : List Nat → Option (Nat × List Nat)
  | [] => none
  | x :: s => some (x, s)

/-- Modelled from the spec: set.c is absent from src/.  `set_cardinality`
is the current size of the WaitingSet. -/
def set_cardinality (s : List Nat) : Nat := s.length

/-!
## C1: the elf-taking loop of `help_elves`

`help_elves` runs a loop whose body performs one `set_take` and one
`sem_signal_index` (waking the taken elf).  In the v2 variant
(src/unnamed/part_002 line 137) the loop is
`for(i = 0; i < NUM_ELVES_PER_GROUP; ++i)`; in the trunk variant
(src/trunk/main.c line 125) it is `for(i = i; i < NUM_ELVES_PER_GROUP; ++i)`
— the counter `i` is read uninitialized, so the iteration count depends on
the indeterminate value `i` happens to hold.
-/

/-- The body of the elf-taking loop, iterated `n` times: each iteration
removes one elf from the WaitingSet and wakes it.  Returns the list of
taken-and-woken elves and the remaining WaitingSet.  (From
src/unnamed/part_002 lines 137-141 / src/trunk/main.c lines 125-129.) -/
def help_loop : Nat → List Nat → List Nat × List Nat
  | 0, s => ([], s)
  | n + 1, s =>
    match set_take s with
    | none => ([], s)
    | some (e, rest) =>
      let r := help_loop n rest
      (e :: r.1, r.2)

/-- src/trunk/main.c lines 124-130: `for(i = i; i < NUM_ELVES_PER_GROUP; ++i)`
with `i` uninitialized.  The loop executes `NUM_ELVES_PER_GROUP - i0` times
for whatever indeterminate initial value `i0` the variable holds (0 times
when `i0 >= 3`, more than 3 times when `i0 < 0`); `Int.toNat` performs
exactly that clamping. -/
def help_elves_trunk (i0 : Int) (waiting : List Nat) : List Nat × List Nat :=
  help_loop (3 - i0).toNat waiting

/-- src/unnamed/part_002 lines 137-141:
`for(i = 0; i < NUM_ELVES_PER_GROUP; ++i)`. -/
def help_elves_v2 (waiting : List Nat) : List Nat × List Nat :=
  help_loop NUM_ELVES_PER_GROUP waiting

/-- Supporting lemma: `n` iterations of the taking loop remove exactly `n`
members whenever at least `n` are waiting. -/
theorem help_loop_exact (n : Nat) :
    ∀ s : List Nat, n ≤ s.length →
      (help_loop n s).1.length = n ∧ (help_loop n s).2.length = s.length - n := by
  induction n with
  | zero => intro s _; simp [help_loop]
  | succ n ih =>
    intro s h
    rcases s with _ | ⟨x, s⟩
    · simp at h
    · have hn : n ≤ s.length := by simp at h; omega
      obtain ⟨h1, h2⟩ := ih s hn
      simp [help_loop, set_take, h1, h2]

/-- C1: the claim states that `help_elves` removes and wakes exactly
K = 3 waiting elves whenever the WaitingSet holds at least 3.  The v2
variant (loop counter initialized to 0) does exactly that, but the trunk
variant reads its loop counter uninitialized (`for(i = i; ...)`,
src/trunk/main.c line 125), so the number of elves it removes is
`3 - i0` for the indeterminate initial value `i0`: with `i0 = 1` only two
elves are taken, with `i0 = 4` none.  The spec is clearly the intent
(the sibling variant writes `i = 0`) and the trunk loop header is the slip. -/
theorem C1_help_elves_take_counts :
    (help_elves_v2 [4, 7, 2]).1.length = 3
    ∧ (help_elves_v2 [4, 7, 2]).2 = []
    ∧ (help_elves_trunk 0 [4, 7, 2]).1.length = 3
    ∧ (help_elves_trunk 1 [4, 7, 2]).1.length = 2
    ∧ (help_elves_trunk 4 [4, 7, 2]).1.length = 0 := by
  decide

/-!
## C2 / C4: thread bodies as sequences of primitive actions

Each blocking primitive operation of a thread body is one `Act`.  The
three *guard locks* are the mutexes that guard shared data:
`elf_mutex` (guards the WaitingSet), `elf_counter_lock` (guards
`num_elves_being_helped`) and `reindeer_counter_lock` (guards
`num_reindeer_waiting`).  The remaining gates (`santa_busy_mutex`,
`santa_sleep_mutex`, the counting semaphores and the per-elf line
semaphores) are signalling gates that a thread blocks on, not data
guards; in particular `santa_busy_mutex` is the CoordinatorGate token,
which is deliberately held across a whole service window.
-/

/-- The gates (semaphores) of the program, from the globals of
src/trunk/main.c lines 39-50 and src/unnamed/part_002 lines 59-93. -/
inductive Gate
  | elfMutex
  | elfCounterLock
  | reindeerCounterLock
  | santaBusy
  | santaSleep
  | reindeerCounting
  | elfCounting
  | elfLine (id : Nat)
  deriving DecidableEq

/-- The guard locks among the gates: the three data-guarding mutexes. -/
def Gate.isGuardLock : Gate → Bool
  | Gate.elfMutex => true
  | Gate.elfCounterLock => true
  | Gate.reindeerCounterLock => true
  | _ => false

/-- One primitive action of a thread body: a (potentially blocking)
`sem_wait`, a `sem_signal`, the threshold check of an `if`, or an
internal step (prints, set operations, counter updates). -/
inductive Act
  | wait (g : Gate)
  | signal (g : Gate)
  | check
  | internal
  deriving DecidableEq

/-- Walks an action sequence tracking the multiset `held` of guard locks
currently held, and demands at every potentially blocking action (every
`sem_wait`) that no guard lock other than the one being acquired is
held. -/
def safe_from : List Gate → List Act → Bool
  | _, [] => true
  | held, Act.wait g :: rest =>
    held.all (fun x => decide (x = g))
    && safe_from (if g.isGuardLock then g :: held else held) rest
  | held, Act.signal g :: rest =>
    safe_from (held.filter (fun x => decide (x ≠ g))) rest
  | held, Act.internal :: rest => safe_from held rest
  | held, Act.check :: rest => safe_from held rest

/-- A thread body never blocks while holding another guard lock. -/
def blocksSafely (acts : List Act) : Bool := safe_from [] acts

/-- Walks an action sequence tracking whether the gate `g` is currently
held (`h`), and demands that every threshold check (`Act.check`) happens
while `g` is held. -/
def checks_under (g : Gate) (h : Bool) : List Act → Bool
  | [] => true
  | Act.check :: rest => h && checks_under g h rest
  | Act.wait g2 :: rest => checks_under g (h || decide (g2 = g)) rest
  | Act.signal g2 :: rest => checks_under g (h && !decide (g2 = g)) rest
  | Act.internal :: rest => checks_under g h rest

/-- Every threshold check in `acts` is performed while holding `g`. -/
def check_under_lock (g : Gate) (acts : List Act) : Bool :=
  checks_under g false acts

/-- `get_help` as an action sequence (src/unnamed/part_002 lines 200-212,
src/trunk/main.c lines 192-203; the two variants are identical):
print, then under `elf_counter_lock` decrement the service counter and,
if this elf is the last of the group (`last`), signal `santa_busy_mutex`
once and `elf_counting_sem` NUM_ELVES_PER_GROUP = 3 times. -/
def get_help_acts (last : Bool) : List Act :=
  [Act.internal, Act.wait Gate.elfCounterLock, Act.internal]
  ++ (if last then
        [Act.signal Gate.santaBusy, Act.signal Gate.elfCounting,
         Act.signal Gate.elfCounting, Act.signal Gate.elfCounting]
      else [])
  ++ [Act.signal Gate.elfCounterLock]

/-- One cycle of the v2 elf thread (src/unnamed/part_002 lines 220-241):
work, acquire an admission credit, then under `elf_mutex` insert into the
WaitingSet, check whether the cardinality reached K (signalling
`santa_sleep_mutex` when it did, `trigger`), release `elf_mutex`, block on
the elf's own line semaphore, then `get_help`. -/
def elf_v2_acts (id : Nat) (trigger last : Bool) : List Act :=
  [Act.internal, Act.wait Gate.elfCounting, Act.wait Gate.elfMutex,
   Act.internal, Act.check]
  ++ (if trigger then [Act.internal, Act.signal Gate.santaSleep] else [])
  ++ [Act.signal Gate.elfMutex, Act.wait (Gate.elfLine id)]
  ++ get_help_acts last

/-- One cycle of the trunk elf thread (src/trunk/main.c lines 210-225):
the `sem_wait_index(&elf_line_set, id)` at line 221 sits *inside*
`CRITICAL(elf_mutex, ...)`, i.e. the elf blocks on its per-identity
wakeup while still holding the WaitingSet lock. -/
def elf_trunk_acts (id : Nat) (last : Bool) : List Act :=
  [Act.internal, Act.wait Gate.elfCounting, Act.wait Gate.elfMutex,
   Act.internal, Act.wait (Gate.elfLine id), Act.signal Gate.elfMutex]
  ++ get_help_acts last

/-- The arrival phase of the v2 reindeer thread (src/unnamed/part_002
lines 267-281): increment `num_reindeer_waiting` under
`reindeer_counter_lock`, release the lock, and only *then* check
`NUM_REINDEER <= num_reindeer_waiting` (signalling `santa_sleep_mutex`
when it holds, `trigger`), then block on `reindeer_counting_sem`. -/
def reindeer_arrival_acts (trigger : Bool) : List Act :=
  [Act.internal, Act.wait Gate.reindeerCounterLock, Act.internal,
   Act.signal Gate.reindeerCounterLock, Act.internal, Act.check]
  ++ (if trigger then [Act.internal, Act.signal Gate.santaSleep] else [])
  ++ [Act.wait Gate.reindeerCounting]

/-- The whole v2 reindeer thread (src/unnamed/part_002 lines 262-297):
arrival phase, then get hitched and decrement the counter under
`reindeer_counter_lock`. -/
def reindeer_v2_acts (trigger : Bool) : List Act :=
  reindeer_arrival_acts trigger
  ++ [Act.wait Gate.reindeerCounterLock, Act.internal,
      Act.signal Gate.reindeerCounterLock]

/-- `prepare_sleigh` as an action sequence (src/unnamed/part_002 lines
150-154, src/trunk/main.c lines 136-145): take the CoordinatorGate and
signal `reindeer_counting_sem` NUM_REINDEER = 10 times. -/
def prepare_sleigh_acts : List Act :=
  [Act.wait Gate.santaBusy, Act.internal]
  ++ List.replicate 10 (Act.signal Gate.reindeerCounting)

/-- `help_elves` as an action sequence (src/unnamed/part_002 lines
118-143): take the CoordinatorGate, set the service counter under
`elf_counter_lock`, then under `elf_mutex` take and wake three elves. -/
def help_elves_acts : List Act :=
  [Act.internal, Act.wait Gate.santaBusy, Act.wait Gate.elfCounterLock,
   Act.internal, Act.signal Gate.elfCounterLock, Act.wait Gate.elfMutex,
   Act.internal, Act.signal (Gate.elfLine 0), Act.signal (Gate.elfLine 1),
   Act.signal (Gate.elfLine 2), Act.signal Gate.elfMutex]

/-- One iteration of the v2 santa thread (src/unnamed/part_002 lines
159-189): announce sleep under the CoordinatorGate, block on the sleep
gate, then take the batch path (`reindeerPath`) or the service path. -/
def santa_v2_acts (reindeerPath : Bool) : List Act :=
  [Act.wait Gate.santaBusy, Act.internal, Act.signal Gate.santaBusy,
   Act.wait Gate.santaSleep, Act.internal]
  ++ (if reindeerPath then
        prepare_sleigh_acts ++ [Act.wait Gate.santaBusy, Act.wait Gate.santaSleep]
      else help_elves_acts)

/-- C2: the claim states that no actor blocks on a gate while holding
another guard lock, and in particular that every elf releases `elf_mutex`
before blocking on its per-identity wakeup.  All v2 thread bodies satisfy
the discipline, but the trunk elf (src/trunk/main.c lines 218-222) blocks
on `elf_line_set[id]` *inside* `CRITICAL(elf_mutex, ...)` — holding the
WaitingSet lock — which deadlocks the elf side on the very first join.
The v2 variant (which waits at line 239, after the critical section) and
the spec are clearly the intent; the trunk placement is the slip. -/
theorem C2_lock_discipline :
    blocksSafely (elf_trunk_acts 0 true) = false
    ∧ blocksSafely (elf_trunk_acts 0 false) = false
    ∧ blocksSafely (elf_v2_acts 0 true true) = true
    ∧ blocksSafely (elf_v2_acts 0 false false) = true
    ∧ blocksSafely (elf_v2_acts 0 true false) = true
    ∧ blocksSafely (santa_v2_acts true) = true
    ∧ blocksSafely (santa_v2_acts false) = true
    ∧ blocksSafely (reindeer_v2_acts true) = true
    ∧ blocksSafely (reindeer_v2_acts false) = true := by
  decide

/-!
## C4: the reindeer arrival race

The v2 reindeer (src/unnamed/part_002 lines 269-278) increments
`num_reindeer_waiting` inside `CRITICAL(reindeer_counter_lock, ...)` but
performs the `NUM_REINDEER <= num_reindeer_waiting` check *after*
releasing the lock.  The interleaving machine below has one thread per
reindeer, each executing the four steps of that arrival code; a schedule
is a list of thread indices, and a blocked or finished thread scheduled
out of turn simply makes no progress.
-/

/-- Shared state of the reindeer arrival phase:
`numReindeerWaiting` (a C `int`), whether `reindeer_counter_lock` is
held, how many times `santa_sleep_mutex` has been signalled, and each
thread's program counter (0 = about to acquire the lock, 1 = about to
increment, 2 = about to release, 3 = about to run the threshold check,
4 = past the check). -/
structure ArrivalState where
  numReindeerWaiting : Int
  lockHeld : Bool
  sleepSignals : Nat
  pcs : List Nat
  deriving DecidableEq

/-- One scheduler step: thread `t` executes its next statement of the v2
reindeer arrival code (src/unnamed/part_002 lines 269-278) if it can. -/
def arrival_step (s : ArrivalState) (t : Nat) : ArrivalState :=
  match s.pcs[t]? with
  | none => s
  | some pc =>
    if pc = 0 then
      if s.lockHeld then s
      else { s with lockHeld := true, pcs := s.pcs.set t 1 }
    else if pc = 1 then
      { s with numReindeerWaiting := s.numReindeerWaiting + 1,
               pcs := s.pcs.set t 2 }
    else if pc = 2 then
      { s with lockHeld := false, pcs := s.pcs.set t 3 }
    else if pc = 3 then
      if 10 ≤ s.numReindeerWaiting then
        { s with sleepSignals := s.sleepSignals + 1, pcs := s.pcs.set t 4 }
      else { s with pcs := s.pcs.set t 4 }
    else s

/-- Run a schedule (a list of thread indices) from a state. -/
def arrival_run (s : ArrivalState) (sched : List Nat) : ArrivalState :=
  sched.foldl arrival_step s

/-- All ten reindeer back, none yet past its increment; the counter and
the sleep gate start at 0 as initialized in main (src/unnamed/part_002
lines 76 and 397). -/
def arrival_init : ArrivalState :=
  { numReindeerWaiting := 0, lockHeld := false, sleepSignals := 0,
    pcs := List.replicate 10 0 }

/-- A legal schedule in which every reindeer completes its locked
increment before any reindeer runs its (unlocked) threshold check. -/
def slow_check_schedule : List Nat :=
  [0, 0, 0, 1, 1, 1, 2, 2, 2, 3, 3, 3, 4, 4, 4, 5, 5, 5, 6, 6, 6,
   7, 7, 7, 8, 8, 8, 9, 9, 9,
   0, 1, 2, 3, 4, 5, 6, 7, 8, 9]

set_option maxRecDepth 4096 in
/-- C4 counterexample: the claim says that for each threshold crossing at
most one actor raises the Coordinator trigger, because the Nth check is
performed while still holding the lock that guarded the increment.  Under
the schedule in which every reindeer increments before any checks, every
one of the ten reindeer sees `10 <= num_reindeer_waiting` and signals
`santa_sleep_mutex`: ten trigger raises for one threshold crossing. -/
theorem C4_multiple_triggers :
    (arrival_run arrival_init slow_check_schedule).sleepSignals = 10
    ∧ (arrival_run arrival_init slow_check_schedule).numReindeerWaiting = 10 := by
  decide

/-- C4 amended: the Kth check of the Helper-seekers is indeed performed
while still holding `elf_mutex` (src/unnamed/part_002 lines 228-237), but
the Nth check of the Transport units is performed only after
`reindeer_counter_lock` has been released (src/unnamed/part_002 lines
269-278), so several Transport units can simultaneously believe they are
the Nth. -/
theorem C4_threshold_check_placement :
    check_under_lock Gate.elfMutex (elf_v2_acts 0 true true) = true
    ∧ check_under_lock Gate.elfMutex (elf_v2_acts 5 false true) = true
    ∧ check_under_lock Gate.elfMutex (elf_v2_acts 0 false false) = true
    ∧ check_under_lock Gate.reindeerCounterLock (reindeer_arrival_acts true) = false
    ∧ check_under_lock Gate.reindeerCounterLock (reindeer_arrival_acts false) = false := by
  decide

/-!
## C3: santa's strict priority
-/

/-- The two activities santa can pick, or going back to sleep. -/
inductive SantaChoice
  | prepareSleighPath
  | helpElvesPath
  | keepSleeping
  deriving DecidableEq

/-- The decision santa takes on wake (src/unnamed/part_002 lines 175-186,
src/trunk/main.c lines 164-177; identical structure in both variants):
`if(NUM_REINDEER <= num_reindeer_waiting) { ... prepare_sleigh(); ... }
else if(3 <= set_cardinality(elves_waiting)) { help_elves(); }`. -/
def santa_choice (numReindeerWaiting : Int) (card : Nat) : SantaChoice :=
  if 10 ≤ numReindeerWaiting then SantaChoice.prepareSleighPath
  else if 3 ≤ card then SantaChoice.helpElvesPath
  else SantaChoice.keepSleeping

/-- C3: on any wake at which both thresholds hold — at least NUM_REINDEER
reindeer waiting and at least 3 elves in the WaitingSet — santa takes the
batch-transport path (`prepare_sleigh`), never the helper-service path:
the reindeer test is the `if` branch and the elf test only its `else`. -/
theorem C3_priority (r : Int) (c : Nat) (hr : 10 ≤ r) (_hc : 3 ≤ c) :
    santa_choice r c = SantaChoice.prepareSleighPath := by
  simp [santa_choice, hr]

/-- Witness for C3 at the exact thresholds. -/
theorem C3_priority_witness :
    santa_choice 10 3 = SantaChoice.prepareSleighPath :=
  C3_priority 10 3 (by decide) (by decide)

/-!
## C5: batch exactness and termination
-/

/-- State of the batch-departure phase: the value of
`reindeer_counting_sem`, the C `int` `num_reindeer_waiting`, and whether
the run has terminated (`exit(EXIT_SUCCESS)` was reached). -/
structure BatchState where
  reindeerCountingSem : Nat
  numReindeerWaiting : Int
  exited : Bool
  deriving DecidableEq

/-- The body of `prepare_sleigh` relevant to the batch-ready signal
(src/unnamed/part_002 lines 150-154, src/trunk/main.c lines 136-145):
`sem_signal_ntimes(reindeer_counting_sem, NUM_REINDEER)` releases
NUM_REINDEER = 10 credits.  (The `sem_wait(santa_busy_mutex)` that
precedes it only parks the CoordinatorGate and is irrelevant here.) -/
def prepare_sleigh (s : BatchState) : BatchState :=
  { s with reindeerCountingSem := s.reindeerCountingSem + 10 }

/-- One reindeer departing (src/unnamed/part_002 lines 281-294,
src/trunk/main.c lines 259-269): `sem_wait(reindeer_counting_sem)`
consumes one credit (no progress when no credit is available — the
reindeer stays blocked), then under `reindeer_counter_lock` the reindeer
gets hitched, decrements `num_reindeer_waiting`, and if the counter
reached 0 calls `exit(EXIT_SUCCESS)`. -/
def reindeer_depart (s : BatchState) : BatchState :=
  if s.reindeerCountingSem = 0 then s
  else
    { reindeerCountingSem := s.reindeerCountingSem - 1,
      numReindeerWaiting := s.numReindeerWaiting - 1,
      exited := s.exited || decide (s.numReindeerWaiting - 1 = 0) }

/-- The state at the start of a batch: santa has just clamped
`num_reindeer_waiting = NUM_REINDEER` (src/unnamed/part_002 line 177)
and `reindeer_counting_sem` still has the 0 credits it was initialized
with (src/unnamed/part_002 line 398). -/
def batch_start : BatchState :=
  { reindeerCountingSem := 0, numReindeerWaiting := 10, exited := false }

/-- C5: per batch the Coordinator releases the batch-ready counting
signal exactly N = 10 times (`prepare_sleigh` raises the semaphore from
0 to 10), each of the first k ≤ 10 departures consumes exactly one
credit and decrements the counter by one, the run has terminated exactly
when the 10th has departed (the counter reaching 0), and an 11th
`sem_wait` would find no credit and make no progress. -/
theorem C5_batch_exactness :
    (∀ k : Nat, k ≤ 10 →
      (reindeer_depart^[k] (prepare_sleigh batch_start)).reindeerCountingSem = 10 - k
      ∧ (reindeer_depart^[k] (prepare_sleigh batch_start)).numReindeerWaiting
          = 10 - (k : Int)
      ∧ ((reindeer_depart^[k] (prepare_sleigh batch_start)).exited = true ↔ k = 10))
    ∧ (prepare_sleigh batch_start).reindeerCountingSem = 10
    ∧ reindeer_depart (reindeer_depart^[10] (prepare_sleigh batch_start))
        = reindeer_depart^[10] (prepare_sleigh batch_start) := by
  refine ⟨?_, by decide, by decide⟩
  decide

/-- Witness for C5 at the completed batch, k = 10: all ten credits are
consumed, the counter is 0 and the run has exited. -/
theorem C5_batch_exactness_witness :
    (reindeer_depart^[10] (prepare_sleigh batch_start)).reindeerCountingSem = 10 - 10
    ∧ (reindeer_depart^[10] (prepare_sleigh batch_start)).numReindeerWaiting
        = 10 - ((10 : Nat) : Int)
    ∧ ((reindeer_depart^[10] (prepare_sleigh batch_start)).exited = true ↔ 10 = 10) :=
  C5_batch_exactness.1 10 (by decide)

/-!
## C6: the elf trigger fires on the third join only
-/

/-- The v2 elf critical section (src/unnamed/part_002 lines 228-237):
insert one's own id into the WaitingSet and signal the Coordinator's
sleep gate exactly if `NUM_ELVES_PER_GROUP == set_cardinality(...)` after
the insertion.  Returns the new WaitingSet and whether the trigger was
raised. -/
def elf_line_up (id : Nat) (w : List Nat) : List Nat × Bool :=
  let w2 := set_insert w id
  (w2, NUM_ELVES_PER_GROUP == set_cardinality w2)

/-- C6: an elf raises the Coordinator's trigger exactly when its own
insertion brings the WaitingSet cardinality to K = 3, i.e. exactly when
it joins a WaitingSet of cardinality 2; the first and second joins of a
forming group (cardinality 0 or 1 before the join) raise no trigger. -/
theorem C6_trigger_on_third_join (id : Nat) (w : List Nat) :
    ((elf_line_up id w).2 = true ↔ set_cardinality w = 2)
    ∧ (elf_line_up id []).2 = false
    ∧ (elf_line_up id [7]).2 = false
    ∧ (elf_line_up id [7, 8]).2 = true := by
  refine ⟨?_, rfl, rfl, rfl⟩
  simp [elf_line_up, set_insert, set_cardinality, NUM_ELVES_PER_GROUP]

/-!
## C7: the last serviced elf releases the Coordinator
-/

/-- State touched by `get_help`: the C `int` `num_elves_being_helped`,
and the values of `santa_busy_mutex` and `elf_counting_sem`. -/
structure HelpState where
  numElvesBeingHelped : Int
  santaBusySem : Nat
  elfCountingSem : Nat
  deriving DecidableEq

/-- `get_help` (src/unnamed/part_002 lines 200-212, src/trunk/main.c
lines 192-203; identical): under `elf_counter_lock` decrement
`num_elves_being_helped`; if it reached 0, signal `santa_busy_mutex`
once and `sem_signal_ntimes(elf_counting_sem, NUM_ELVES_PER_GROUP)`,
i.e. return 3 admission credits. -/
def get_help (s : HelpState) : HelpState :=
  if s.numElvesBeingHelped - 1 = 0 then
    { numElvesBeingHelped := 0,
      santaBusySem := s.santaBusySem + 1,
      elfCountingSem := s.elfCountingSem + 3 }
  else
    { s with numElvesBeingHelped := s.numElvesBeingHelped - 1 }

/-- C7: the seeker whose decrement brings the service counter to 0
releases the CoordinatorGate exactly once and returns exactly K = 3
admission credits; a seeker whose decrement leaves the counter nonzero
releases neither.  Consequently a full group of 3 (counter set to 3 by
`help_elves`) produces exactly one CoordinatorGate release and exactly 3
credits, from its last member. -/
theorem C7_last_elf_releases :
    (∀ s : HelpState,
      (s.numElvesBeingHelped = 1 →
        get_help s = ⟨0, s.santaBusySem + 1, s.elfCountingSem + 3⟩)
      ∧ (s.numElvesBeingHelped ≠ 1 →
        get_help s = ⟨s.numElvesBeingHelped - 1, s.santaBusySem, s.elfCountingSem⟩))
    ∧ (∀ b c : Nat,
        get_help (get_help (get_help ⟨3, b, c⟩)) = ⟨0, b + 1, c + 3⟩) := by
  constructor
  · intro s
    constructor
    · intro h
      simp [get_help, h]
    · intro h
      rw [get_help, if_neg (by omega)]
  · intro b c
    norm_num [get_help]

/-- Witness for C7: a concrete last-of-group call (counter 1) releases
the gate once and returns three credits. -/
theorem C7_last_elf_releases_witness :
    get_help ⟨1, 4, 0⟩ = ⟨0, 4 + 1, 0 + 3⟩ :=
  (C7_last_elf_releases.1 ⟨1, 4, 0⟩).1 rfl

/-!
## C8: idempotent teardown
-/

/-- The observable effects of one execution of the `free_resources` body
(src/trunk/main.c lines 304-316, src/unnamed/part_002 lines 322-331):
a farewell message, emptying the two semaphore sets, and freeing the
WaitingSet. -/
inductive TeardownEvent
  | goodbyeMessage
  | emptySemSet
  | emptyElfLineSet
  | freeWaitingSet
  deriving DecidableEq

/-- Teardown state: the static `resources_freed` flag and the trace of
effects performed so far. -/
structure TeardownState where
  resourcesFreed : Bool
  events : List TeardownEvent
  deriving DecidableEq

/-- `free_resources` (src/trunk/main.c lines 304-316, src/unnamed/part_002
lines 322-331): guarded by the static flag `resources_freed`, which is
set before the frees are performed; a call finding the flag set does
nothing. -/
def free_resources (s : TeardownState) : TeardownState :=
  if s.resourcesFreed then s
  else
    { resourcesFreed := true,
      events := s.events ++
        [TeardownEvent.goodbyeMessage, TeardownEvent.emptySemSet,
         TeardownEvent.emptyElfLineSet, TeardownEvent.freeWaitingSet] }

/-- C8: teardown is idempotent — a second call to `free_resources` (from
any state, in particular after a normal completion followed by a
duplicate shutdown request) performs no frees and leaves the state, and
hence the trace of observable effects, exactly as the first call left
it. -/
theorem C8_free_resources_idempotent (s : TeardownState) :
    free_resources (free_resources s) = free_resources s := by
  rcases s with ⟨f, ev⟩
  cases f <;> simp [free_resources]

/-!
## C9: startup performs no configuration validation

Both mains (src/trunk/main.c lines 328-378, src/unnamed/part_002 lines
370-417) allocate the semaphore sets and the WaitingSet, register the
at-exit handler, install the SIGINT handler, initialize the semaphores,
seed the random generator, and launch the threads.  The pool sizes E, N
and the group size K are compile-time `#define`s, and no statement
anywhere compares them or reports a configuration error; the only
startup failure that is detected and reported is `atexit` registration
failing.  `main_startup` is therefore parameterized by the three
constants to exhibit that the startup sequence does not depend on their
validity.
-/

/-- The observable startup events of `main`. -/
inductive StartupEvent
  | allocSemSets
  | allocWaitingSet
  | registerAtexit
  | initSemaphores
  | launchThreads (numElves numReindeer : Nat)
  | reportAtexitError
  | callFreeResources
  deriving DecidableEq

/-- The startup sequence of `main` (src/unnamed/part_002 lines 370-417,
src/trunk/main.c lines 328-378), parameterized by the build constants
NUM_ELVES, NUM_REINDEER and NUM_ELVES_PER_GROUP and by whether `atexit`
registration succeeds.  No branch inspects the constants. -/
def main_startup (numElves numReindeer _elvesPerGroup : Nat)
    (atexitOk : Bool) : List StartupEvent :=
  [StartupEvent.allocSemSets, StartupEvent.allocWaitingSet]
  ++ (if atexitOk then
        [StartupEvent.registerAtexit, StartupEvent.initSemaphores,
         StartupEvent.launchThreads numElves numReindeer]
      else [StartupEvent.reportAtexitError, StartupEvent.callFreeResources])

/-- C9 counterexample: with an invalid configuration — group size
K = 10 greater than the elf pool size E = 9 — startup still launches all
actor threads and reports no error at all: the claim that an invalid
K/E/N combination is detected and reported as fatal before any actor
launches is false of the code, which contains no validation. -/
theorem C9_no_config_check :
    main_startup 9 10 10 true
      = [StartupEvent.allocSemSets, StartupEvent.allocWaitingSet,
         StartupEvent.registerAtexit, StartupEvent.initSemaphores,
         StartupEvent.launchThreads 9 10]
    ∧ StartupEvent.reportAtexitError ∉ main_startup 9 10 10 true := by
  decide

/-- C9 amended: `main` never validates the run configuration; for every
choice of the constants (valid or not) the successful-`atexit` startup
sequence is the same — allocate, register, initialize, launch — and no
error is reported. -/
theorem C9_startup_never_validates (e n k : Nat) :
    main_startup e n k true
      = [StartupEvent.allocSemSets, StartupEvent.allocWaitingSet,
         StartupEvent.registerAtexit, StartupEvent.initSemaphores,
         StartupEvent.launchThreads e n]
    ∧ StartupEvent.reportAtexitError ∉ main_startup e n k true := by
  constructor
  · simp [main_startup]
  · simp [main_startup]

/-!
## C10: the busy-wait loop of `random_wait`

`random_wait` (src/trunk/main.c lines 68-79, src/unnamed/part_002 lines
103-107) draws `unsigned int i = rand() % MAX_WAIT_TIME` and then runs
`for(; --i; ) ;`.  `unsigned int` is 32 bits wide, so the pre-decrement
of 0 wraps to 4294967295 = 2^32 - 1.  The loop is embedded with explicit
fuel; the theorem below shows the fuel 2^32 + 1 = 4294967297 always
suffices (the loop terminates) and computes the exact number of body
executions.
-/

/-- MAX_WAIT_TIME = INT_MAX >> 4 = (2^31 - 1) >> 4 = 134217727
(src/trunk/main.c line 20, src/unnamed/part_002 line 38). -/
def MAX_WAIT_TIME : Nat := 134217727

/-- One pre-decrement `--i` of the 32-bit unsigned loop counter:
subtraction of 1 modulo 2^32 = 4294967296. -/
def busy_wait_dec (i : Nat) : Nat := (i + 4294967295) % 4294967296

/-- The loop `for(; --i; ) ;` with explicit fuel: each step pre-decrements
`i` and exits when the result is 0; the returned value counts how many
times the (empty) body executed, and `none` means the fuel ran out. -/
def busy_wait_loop : Nat → Nat → Option Nat
  | 0, _ => none
  | fuel + 1, i =>
    let d := busy_wait_dec i
    if d = 0 then some 0
    else (busy_wait_loop fuel d).map (· + 1)

/-- A positive 32-bit counter decrements without wrapping. -/
theorem busy_wait_dec_of_pos (j : Nat) (h1 : 0 < j) (h2 : j < 4294967296) :
    busy_wait_dec j = j - 1 := by
  unfold busy_wait_dec
  have h3 : j + 4294967295 = (j - 1) + 4294967296 := by omega
  rw [h3, Nat.add_mod_right, Nat.mod_eq_of_lt (by omega)]

/-- One unfolding of the loop, with the fuel kept symbolic so that the
rewrite cannot cascade through the 2^32 recursive steps. -/
theorem busy_wait_loop_succ (fuel i : Nat) :
    busy_wait_loop (fuel + 1) i =
      if busy_wait_dec i = 0 then some 0
      else (busy_wait_loop fuel (busy_wait_dec i)).map (· + 1) := by
  simp only [busy_wait_loop]

/-- From a positive 32-bit value `j`, the loop terminates after `j - 1`
body executions, given fuel at least `j`. -/
theorem busy_wait_loop_of_pos :
    ∀ j : Nat, 0 < j → j < 4294967296 → ∀ fuel : Nat, j ≤ fuel →
      busy_wait_loop fuel j = some (j - 1) := by
  intro j
  induction j with
  | zero => intro h; exact absurd h (by decide)
  | succ j ih =>
    intro _ h2 fuel hf
    rcases fuel with _ | g
    · exact absurd hf (by omega)
    · rw [busy_wait_loop_succ]
      rw [busy_wait_dec_of_pos (j + 1) (Nat.succ_pos j) h2]
      simp only [Nat.add_sub_cancel]
      by_cases hj : j = 0
      · subst hj
        simp
      · rw [if_neg hj, ih (Nat.pos_of_ne_zero hj) (by omega) g (by omega)]
        simp only [Option.map_some']
        rw [Nat.sub_add_cancel (Nat.pos_of_ne_zero hj)]

/-- C10: for every draw `v` the loop terminates within 2^32 + 1 steps,
and the body-execution count is `v - 1` for a positive draw but
2^32 - 1 = 4294967295 for a draw of exactly 0 (the pre-decrement wraps),
which strictly exceeds the count of every positive draw — the shortest
draw produces the longest wait. -/
theorem C10_busy_wait_count (v : Nat) (hv : v < MAX_WAIT_TIME) :
    busy_wait_loop 4294967297 v = some (if v = 0 then 4294967295 else v - 1)
    ∧ (v ≠ 0 → v - 1 < 4294967295) := by
  have hv2 : v < 134217727 := hv
  constructor
  · by_cases h0 : v = 0
    · subst h0
      have e1 : busy_wait_loop 4294967297 0 = busy_wait_loop (4294967296 + 1) 0 := by
        norm_num
      rw [e1, busy_wait_loop_succ]
      rw [show busy_wait_dec 0 = 4294967295 by rfl]
      rw [if_neg (by decide),
          busy_wait_loop_of_pos 4294967295 (by decide) (by decide) 4294967296
            (by decide)]
      decide
    · rw [if_neg h0]
      exact busy_wait_loop_of_pos v (Nat.pos_of_ne_zero h0) (by omega)
        4294967297 (by omega)
  · intro _
    omega

/-- Witness for C10 at the draw 0: the wrapping pre-decrement makes the
empty loop body run 4294967295 times. -/
theorem C10_busy_wait_count_witness :
    busy_wait_loop 4294967297 0
      = some (if (0 : Nat) = 0 then 4294967295 else 0 - 1) :=
  (C10_busy_wait_count 0 (by decide)).1

end UwoSantaClause
